import Mathlib

set_option maxRecDepth 40000

/-!
Shallow embedding of the BlenderMCP repository (script builder, process
executor, domain operation catalog and protocol dispatch) and proofs of the
behavioural claims about it.

Python values appearing in the response dictionaries are modelled by `PyVal`;
Python floats are carried by their `str()` representation, which is exactly
the text an f-string interpolation inserts into a generated script.  The
filesystem and subprocess effects of the executor are modelled by an explicit
`World` state threaded through the functions, with an ordered event trace.
Exceptions of the external `subprocess.run` call are modelled by the
`SubprocessOutcome` parameter (normal completion, timeout, or a raised
exception); every embedded function is total, mirroring the source's
catch-all `try/except` blocks which never let an exception escape.
-/

namespace BlenderMCP

/-- A Python value as it occurs in the response dictionaries of this
repository.  Floats are represented by their `str()` text. -/
inductive PyVal where
  | vNone : PyVal
  | vBool : Bool → PyVal
  | vInt : Int → PyVal
  | vNum : String → PyVal
  | vStr : String → PyVal
  | vTuple : List PyVal → PyVal
  | vList : List PyVal → PyVal
  | vDict : List (String × PyVal) → PyVal
deriving Repr

/-- A Python dictionary with string keys, in insertion order. -/
abbrev Dict := List (String × PyVal)

/-- Python truthiness (`if not result["success"]`); in this repository the
tested value is always a `vBool`. -/
def isTruthy : PyVal → Bool
  | .vNone => false
  | .vBool b => b
  | .vInt n => !(n == 0)
  | .vNum r => !(r == "0" || r == "0.0" || r == "-0.0")
  | .vStr s => !(s == "")
  | .vTuple xs => !xs.isEmpty
  | .vList xs => !xs.isEmpty
  | .vDict kvs => !kvs.isEmpty

/-- Python's `str.lower()` (ASCII-relevant here: format names). -/
def pyLower (s : String) : String := String.mk (s.data.map Char.toLower)

/-- Python's `str.endswith(suffix)`. -/
def pyEndsWith (s suf : String) : Bool := List.isSuffixOf suf.data s.data

/-- Python `str.join`: Python's `sep.join(parts)`. -/
def joinSep (sep : String) : List String → String
  | [] => ""
  | [x] => x
  | x :: xs => x ++ sep ++ joinSep sep xs

/-- The part of the script template before the `{operations}` placeholder,
after `str.format` has rewritten `\x7b\x7b`/`\x7d\x7d` to single braces. -/
def templateHead : String :=
  "\nimport bpy\nimport bmesh\nimport json\nimport sys\nimport traceback\n\ndef main():\n    try:\n        # Clear existing mesh objects\n        bpy.ops.object.select_all(action=\x27SELECT\x27)\n        bpy.ops.object.delete(use_global=False, confirm=False)\n        \n        results = []\n        \n        "

/-- The part of the script template after the `{operations}` placeholder,
after `str.format` has rewritten `\x7b\x7b`/`\x7d\x7d` to single braces. -/
def templateTail : String :=
  "\n        \n        # Success output\n        print(\"BLENDER_MCP_SUCCESS:\", json.dumps(\x7b\"success\": True, \"results\": results\x7d))\n        \n    except Exception as e:\n        error_info = \x7b\n            \"success\": False,\n            \"error\": str(e),\n            \"traceback\": traceback.format_exc()\n        \x7d\n        print(\"BLENDER_MCP_ERROR:\", json.dumps(error_info))\n        sys.exit(1)\n\nif __name__ == \"__main__\":\n    main()\n"

/-- Model of `BlenderManager.create_basic_script`: joins the operation statements with
`"\n        "` and splices them into the fixed template via `str.format`. -/
def create_basic_script (operations : List String) : String :=
  templateHead ++ joinSep "\n        " operations ++ templateTail

/-- Outcome of the external `subprocess.run` call: normal completion with
captured streams and exit code, a `TimeoutExpired`, or any other raised
exception carrying its message. -/
inductive SubprocessOutcome where
  | completed : String → String → Int → SubprocessOutcome
  | timeout : SubprocessOutcome
  | exc : String → SubprocessOutcome
deriving Repr

/-- Observable filesystem / process events, in program order. -/
inductive FsEvent where
  | writeFile : String → String → FsEvent
  | removeFile : String → FsEvent
  | makedirs : String → FsEvent
  | runProcess : List String → FsEvent
  | removeTree : String → FsEvent
deriving Repr, DecidableEq

/-- State owned by the `BlenderManager`: an event trace, the files staged in
the manager's temporary directory (name to content, later writes shadow),
whether the temporary directory still exists, and the directories created by
`os.makedirs`. -/
structure World where
  events : List FsEvent
  tempFiles : List (String × String)
  tempDirExists : Bool
  madeDirs : List String
deriving Repr

/-- Name of the staged script file inside the temporary directory
(`os.path.join(self.temp_dir, "temp_script.py")`). -/
def scriptFileName : String := "temp_script.py"

/-- Model of `open(script_file, "w")` followed by `f.write(script)`: records the event
and overwrites any previous file of that name. -/
def fsWrite (w : World) (path content : String) : World :=
  { w with
    events := w.events ++ [.writeFile path content]
    tempFiles := (path, content) :: w.tempFiles.filter (fun e => !(e.1 == path)) }

/-- Model of `os.remove(path)`. -/
def fsRemove (w : World) (path : String) : World :=
  { w with
    events := w.events ++ [.removeFile path]
    tempFiles := w.tempFiles.filter (fun e => !(e.1 == path)) }

/-- Model of `os.makedirs(dir, exist_ok=True)`: creating the empty path —
which `os.path.dirname` yields for a bare filename — raises
`FileNotFoundError` deterministically (`str(e)` is the carried message); a
non-empty path is recorded.  Other OS-level failures (permissions, …) are
environment-dependent and out of scope, like the subprocess environment. -/
def fsMakedirs (w : World) (dir : String) : Except String World :=
  if dir = "" then
    .error "[Errno 2] No such file or directory: \x27\x27"
  else
    .ok { w with
      events := w.events ++ [.makedirs dir]
      madeDirs := if w.madeDirs.contains dir then w.madeDirs
                  else w.madeDirs ++ [dir] }

/-- Record the `subprocess.run(cmd, ...)` invocation. -/
def fsRun (w : World) (cmd : List String) : World :=
  { w with events := w.events ++ [.runProcess cmd] }

/-- The Blender command line built by `execute_blender_script`. -/
def blenderCmd (exe : String) (blendFile : Option String) : List String :=
  match blendFile with
  | some bf => [exe, bf, "--python", scriptFileName]
  | none => [exe, "--background", "--factory-startup", "--python", scriptFileName]

/-- Path of the configured Blender executable (resolved at manager
construction; its concrete value is irrelevant to the claims). -/
def blenderExecutable : String := "blender"

/-- Model of `BlenderManager.execute_blender_script`: stages the script in the
temporary directory, runs Blender, and returns the result dictionary.  On
normal completion the staged file is removed and the dictionary is
`{success, stdout, stderr, returncode}`; on `TimeoutExpired` or any other
exception the corresponding error dictionary is returned (the staged file is
left in place).  The function never raises: both exceptional paths are the
source's `except` branches. -/
def execute_blender_script (w : World) (script : String)
    (blendFile : Option String) (outcome : SubprocessOutcome) : Dict × World :=
  let w1 := fsWrite w scriptFileName script
  let w2 := fsRun w1 (blenderCmd blenderExecutable blendFile)
  match outcome with
  | .completed out err rc =>
      let w3 := fsRemove w2 scriptFileName
      ([("success", .vBool (rc == 0)), ("stdout", .vStr out),
        ("stderr", .vStr err), ("returncode", .vInt rc)], w3)
  | .timeout =>
      ([("success", .vBool false),
        ("error", .vStr "Blender script execution timed out"),
        ("timeout", .vBool true)], w2)
  | .exc msg =>
      ([("success", .vBool false), ("error", .vStr msg)], w2)

/-- Model of `BlenderManager.cleanup`: `shutil.rmtree(self.temp_dir)`. -/
def cleanup (w : World) : World :=
  { w with
    events := w.events ++ [.removeTree "temp_dir"]
    tempFiles := []
    tempDirExists := false }

/-- A fresh manager state: empty trace, no staged files, temporary
directory present. -/
def initialWorld : World := ⟨[], [], true, []⟩

/-- Trace events the executor appends after the write and the process run:
on normal completion the staged script is removed, on timeout or exception
nothing more happens. -/
def execTailEvents : SubprocessOutcome → List FsEvent
  | .completed _ _ _ => [.removeFile scriptFileName]
  | .timeout => []
  | .exc _ => []

/-- A Python 3-tuple of floats (such as a `location` argument), each
component carried by its `str()` representation. -/
structure PyTuple3 where
  x : String
  y : String
  z : String
deriving Repr, DecidableEq

/-- f-string interpolation of a 3-tuple of numbers: `(x, y, z)`. -/
def tupleRepr (t : PyTuple3) : String :=
  "(" ++ t.x ++ ", " ++ t.y ++ ", " ++ t.z ++ ")"

/-- f-string interpolation of a 3-element list of numbers: `[x, y, z]`. -/
def listRepr (t : PyTuple3) : String :=
  "[" ++ t.x ++ ", " ++ t.y ++ ", " ++ t.z ++ "]"

/-- The tuple as a `PyVal` stored in a response dictionary. -/
def tuplePy (t : PyTuple3) : PyVal :=
  .vTuple [.vNum t.x, .vNum t.y, .vNum t.z]

/-- The list as a `PyVal` stored in a response dictionary. -/
def listPy (t : PyTuple3) : PyVal :=
  .vList [.vNum t.x, .vNum t.y, .vNum t.z]

/-- f-string interpolation of a Python bool (`str(True)` / `str(False)`). -/
def pyBoolRepr (b : Bool) : String := if b then "True" else "False"

/-- Python `repr` of a list of strings, as interpolated by an f-string
(elements single-quoted; faithful for names without quote characters). -/
def pyStrListRepr (xs : List String) : String :=
  "[" ++ joinSep ", " (xs.map (fun s => "\x27" ++ s ++ "\x27")) ++ "]"

/-- The response dictionary shared by the primitive-creation tools in
`server.py`: `{"success": result["success"], "object_name": name,
"object_type": t, "parameters": {...}, "blender_output": result.get("stdout",
""), "errors": result.get("stderr", "") if not result["success"] else None}`. -/
def primitiveResponse (name objType : String) (params : Dict)
    (result : Dict) : Dict :=
  let success := (List.lookup "success" result).getD .vNone
  [("success", success),
   ("object_name", .vStr name),
   ("object_type", .vStr objType),
   ("parameters", .vDict params),
   ("blender_output", (List.lookup "stdout" result).getD (.vStr "")),
   ("errors", if isTruthy success then .vNone
              else (List.lookup "stderr" result).getD (.vStr ""))]

/-- Operation statements built by `server.create_cube`. -/
def create_cube_operations (size : String) (location : PyTuple3)
    (name : String) : List String :=
  ["bpy.ops.mesh.primitive_cube_add(size=" ++ size ++ ", location=" ++
     tupleRepr location ++ ")",
   "bpy.context.active_object.name = \"" ++ name ++ "\"",
   "results.append(\x7b\"object\": \"" ++ name ++ "\", \"type\": \"cube\", \"size\": " ++
     size ++ ", \"location\": " ++ tupleRepr location ++ "\x7d)"]

/-- Model of `server.create_cube`. -/
def create_cube (size : String) (location : PyTuple3) (name : String)
    (outcome : SubprocessOutcome) (w : World) : Dict × World :=
  let script := create_basic_script (create_cube_operations size location name)
  let (result, w1) := execute_blender_script w script none outcome
  (primitiveResponse name "cube"
    [("size", .vNum size), ("location", tuplePy location)] result, w1)

/-- Operation statements built by `server.create_sphere`. -/
def create_sphere_operations (radius : String) (location : PyTuple3)
    (name : String) : List String :=
  ["bpy.ops.mesh.primitive_uv_sphere_add(radius=" ++ radius ++ ", location=" ++
     tupleRepr location ++ ")",
   "bpy.context.active_object.name = \"" ++ name ++ "\"",
   "results.append(\x7b\"object\": \"" ++ name ++ "\", \"type\": \"sphere\", \"radius\": " ++
     radius ++ ", \"location\": " ++ tupleRepr location ++ "\x7d)"]

/-- Model of `server.create_sphere`. -/
def create_sphere (radius : String) (location : PyTuple3) (name : String)
    (outcome : SubprocessOutcome) (w : World) : Dict × World :=
  let script := create_basic_script (create_sphere_operations radius location name)
  let (result, w1) := execute_blender_script w script none outcome
  (primitiveResponse name "sphere"
    [("radius", .vNum radius), ("location", tuplePy location)] result, w1)

/-- Operation statements built by `server.create_cylinder`. -/
def create_cylinder_operations (radius depth : String) (location : PyTuple3)
    (name : String) : List String :=
  ["bpy.ops.mesh.primitive_cylinder_add(radius=" ++ radius ++ ", depth=" ++
     depth ++ ", location=" ++ tupleRepr location ++ ")",
   "bpy.context.active_object.name = \"" ++ name ++ "\"",
   "results.append(\x7b\"object\": \"" ++ name ++ "\", \"type\": \"cylinder\", \"radius\": " ++
     radius ++ ", \"depth\": " ++ depth ++ ", \"location\": " ++
     tupleRepr location ++ "\x7d)"]

/-- Model of `server.create_cylinder`. -/
def create_cylinder (radius depth : String) (location : PyTuple3)
    (name : String) (outcome : SubprocessOutcome) (w : World) : Dict × World :=
  let script := create_basic_script
    (create_cylinder_operations radius depth location name)
  let (result, w1) := execute_blender_script w script none outcome
  (primitiveResponse name "cylinder"
    [("radius", .vNum radius), ("depth", .vNum depth),
     ("location", tuplePy location)] result, w1)

/-- Operation statements built by `server.create_plane`. -/
def create_plane_operations (size : String) (location : PyTuple3)
    (name : String) : List String :=
  ["bpy.ops.mesh.primitive_plane_add(size=" ++ size ++ ", location=" ++
     tupleRepr location ++ ")",
   "bpy.context.active_object.name = \"" ++ name ++ "\"",
   "results.append(\x7b\"object\": \"" ++ name ++ "\", \"type\": \"plane\", \"size\": " ++
     size ++ ", \"location\": " ++ tupleRepr location ++ "\x7d)"]

/-- Model of `server.create_plane`. -/
def create_plane (size : String) (location : PyTuple3) (name : String)
    (outcome : SubprocessOutcome) (w : World) : Dict × World :=
  let script := create_basic_script (create_plane_operations size location name)
  let (result, w1) := execute_blender_script w script none outcome
  (primitiveResponse name "plane"
    [("size", .vNum size), ("location", tuplePy location)] result, w1)

/-- Operation statements built by `server.create_cone`. -/
def create_cone_operations (radius1 radius2 depth : String)
    (location : PyTuple3) (name : String) : List String :=
  ["bpy.ops.mesh.primitive_cone_add(radius1=" ++ radius1 ++ ", radius2=" ++
     radius2 ++ ", depth=" ++ depth ++ ", location=" ++
     tupleRepr location ++ ")",
   "bpy.context.active_object.name = \"" ++ name ++ "\"",
   "results.append(\x7b\"object\": \"" ++ name ++ "\", \"type\": \"cone\", \"radius1\": " ++
     radius1 ++ ", \"radius2\": " ++ radius2 ++ ", \"depth\": " ++ depth ++
     ", \"location\": " ++ tupleRepr location ++ "\x7d)"]

/-- Model of `server.create_cone`. -/
def create_cone (radius1 radius2 depth : String) (location : PyTuple3)
    (name : String) (outcome : SubprocessOutcome) (w : World) : Dict × World :=
  let script := create_basic_script
    (create_cone_operations radius1 radius2 depth location name)
  let (result, w1) := execute_blender_script w script none outcome
  (primitiveResponse name "cone"
    [("radius1", .vNum radius1), ("radius2", .vNum radius2),
     ("depth", .vNum depth), ("location", tuplePy location)] result, w1)

/-- Operation statements built by `mcp_server.handle_create_cube`, whose
`location` argument is a JSON array: the add statement interpolates
`tuple(location)` while the results line interpolates the list itself. -/
def handle_create_cube_operations (size : String) (location : PyTuple3)
    (name : String) : List String :=
  ["bpy.ops.mesh.primitive_cube_add(size=" ++ size ++ ", location=" ++
     tupleRepr location ++ ")",
   "bpy.context.active_object.name = \"" ++ name ++ "\"",
   "results.append(\x7b\"object\": \"" ++ name ++ "\", \"type\": \"cube\", \"size\": " ++
     size ++ ", \"location\": " ++ listRepr location ++ "\x7d)"]

/-- The response dictionary built by `mcp_server.handle_create_cube`
(the handler serializes it into a `TextContent` via `json.dumps`; the
serialization wrapper is not modelled, the claim is about this dictionary). -/
def handle_create_cube (size : String) (location : PyTuple3) (name : String)
    (outcome : SubprocessOutcome) (w : World) : Dict × World :=
  let script := create_basic_script
    (handle_create_cube_operations size location name)
  let (result, w1) := execute_blender_script w script none outcome
  (primitiveResponse name "cube"
    [("size", .vNum size), ("location", listPy location)] result, w1)

/-- Model of `posixpath.dirname`: the text before the last slash, with trailing
slashes stripped unless the head is all slashes (`os.path.dirname` on a
POSIX system; the Windows variant also treats backslashes as separators,
which is not modelled). -/
def dirname (p : String) : String :=
  let head := (p.data.reverse.dropWhile (fun c => !(c == '/'))).reverse
  let head2 :=
    if head.isEmpty || head.all (fun c => c == '/') then head
    else (head.reverse.dropWhile (fun c => c == '/')).reverse
  String.mk head2

/-- Allow-list of `export_model` formats. -/
def supported_formats : List String := ["obj", "fbx", "stl", "ply"]

/-- The export statement chosen by `server.export_model` for each format
(the source's if/elif chain; the final branch is unreachable because the
format was validated). -/
def exportOpStmt (f fp : String) (selected_only : Bool) : String :=
  if f == "obj" then
    "bpy.ops.export_scene.obj(filepath=r\"" ++ fp ++ "\", use_selection=" ++
      pyBoolRepr selected_only ++ ")"
  else if f == "fbx" then
    "bpy.ops.export_scene.fbx(filepath=r\"" ++ fp ++ "\", use_selection=" ++
      pyBoolRepr selected_only ++ ")"
  else if f == "stl" then
    "bpy.ops.export_mesh.stl(filepath=r\"" ++ fp ++ "\", use_selection=" ++
      pyBoolRepr selected_only ++ ")"
  else if f == "ply" then
    "bpy.ops.export_mesh.ply(filepath=r\"" ++ fp ++ "\", use_selection=" ++
      pyBoolRepr selected_only ++ ")"
  else ""

/-- Operation statements built by `server.export_model` after validation. -/
def export_model_operations (f fp : String) (selected_only : Bool) :
    List String :=
  [exportOpStmt f fp selected_only,
   "results.append(\x7b\"action\": \"export_model\", \"filepath\": r\"" ++ fp ++
     "\", \"format\": \"" ++ f ++ "\", \"status\": \"completed\"\x7d)"]

/-- Model of `server.export_model`: lowercases the format, rejects values
outside the allow-list before touching the filesystem or any subprocess,
otherwise fixes the extension, creates the directory and executes the export
script.  The `os.makedirs` call is unprotected in the source, so its
`FileNotFoundError` for a path without directory component propagates to the
caller (`Except.error`). -/
def export_model (filepath fmt : String) (selected_only : Bool)
    (outcome : SubprocessOutcome) (w : World) : Except String (Dict × World) :=
  let f := pyLower fmt
  if !(supported_formats.contains f) then
    .ok ([("success", .vBool false),
      ("error", .vStr ("Unsupported format: " ++ f ++ ". Supported: " ++
        pyStrListRepr supported_formats))], w)
  else
    let fp := if pyEndsWith filepath ("." ++ f) then filepath
              else filepath ++ "." ++ f
    match fsMakedirs w (dirname fp) with
    | .error e => .error e
    | .ok w1 =>
        let script := create_basic_script
          (export_model_operations f fp selected_only)
        let (result, w2) := execute_blender_script w1 script none outcome
        let success := (List.lookup "success" result).getD .vNone
        .ok ([("success", success),
          ("action", .vStr "export_model"),
          ("filepath", .vStr fp),
          ("format", .vStr f),
          ("blender_output", (List.lookup "stdout" result).getD (.vStr "")),
          ("errors", if isTruthy success then .vNone
                     else (List.lookup "stderr" result).getD (.vStr ""))], w2)

/-- Operation statements built by `server.save_blend_file`. -/
def save_blend_file_operations (fp : String) : List String :=
  ["bpy.ops.wm.save_as_mainfile(filepath=r\"" ++ fp ++ "\")",
   "results.append(\x7b\"action\": \"save_blend_file\", \"filepath\": r\"" ++ fp ++
     "\", \"status\": \"completed\"\x7d)"]

/-- Model of `server.save_blend_file`: appends `.blend` when missing,
creates the containing directory, then executes the save script.  The
`os.makedirs` call is unprotected in the source, so its `FileNotFoundError`
for a path without directory component propagates to the caller
(`Except.error`). -/
def save_blend_file (filepath : String) (outcome : SubprocessOutcome)
    (w : World) : Except String (Dict × World) :=
  let fp := if pyEndsWith filepath ".blend" then filepath
            else filepath ++ ".blend"
  match fsMakedirs w (dirname fp) with
  | .error e => .error e
  | .ok w1 =>
      let script := create_basic_script (save_blend_file_operations fp)
      let (result, w2) := execute_blender_script w1 script none outcome
      let success := (List.lookup "success" result).getD .vNone
      .ok ([("success", success),
        ("action", .vStr "save_blend_file"),
        ("filepath", .vStr fp),
        ("blender_output", (List.lookup "stdout" result).getD (.vStr "")),
        ("errors", if isTruthy success then .vNone
                   else (List.lookup "stderr" result).getD (.vStr ""))], w2)

/-- Allow-list of `remesh_object` modes. -/
def valid_remesh_modes : List String := ["BLOCKS", "SMOOTH", "SHARP", "VOXEL"]

/-- Operation statements built by `subdivide_smooth.remesh_object` after
validation (`octree_depth` is an int, `scale` a float repr). -/
def remesh_object_operations (object_name : String) (octree_depth : Int)
    (scale mode : String) : List String :=
  ["obj = bpy.data.objects[\"" ++ object_name ++ "\"]",
   "bpy.context.view_layer.objects.active = obj",
   "modifier = obj.modifiers.new(name=\"Remesh\", type=\"REMESH\")",
   "modifier.mode = \"" ++ mode ++ "\"",
   "modifier.octree_depth = " ++ toString octree_depth,
   "modifier.scale = " ++ scale,
   "bpy.ops.object.modifier_apply(modifier=\"Remesh\")",
   "results.append(\x7b\"action\": \"remesh_object\", \"object\": \"" ++ object_name ++
     "\", \"mode\": \"" ++ mode ++ "\", \"octree_depth\": " ++
     toString octree_depth ++ ", \"scale\": " ++ scale ++ "\x7d)"]

/-- Model of `subdivide_smooth.remesh_object`: rejects modes outside the allow-list
before building any script or touching the executor. -/
def remesh_object (object_name : String) (octree_depth : Int)
    (scale mode : String) (outcome : SubprocessOutcome) (w : World) :
    Dict × World :=
  if !(valid_remesh_modes.contains mode) then
    ([("success", .vBool false),
      ("error", .vStr ("Invalid remesh mode: " ++ mode ++ ". Valid modes: " ++
        pyStrListRepr valid_remesh_modes))], w)
  else
    let script := create_basic_script
      (remesh_object_operations object_name octree_depth scale mode)
    let (result, w1) := execute_blender_script w script none outcome
    let success := (List.lookup "success" result).getD .vNone
    ([("success", success),
      ("action", .vStr "remesh_object"),
      ("object_name", .vStr object_name),
      ("parameters", .vDict
        [("mode", .vStr mode), ("octree_depth", .vInt octree_depth),
         ("scale", .vNum scale)]),
      ("blender_output", (List.lookup "stdout" result).getD (.vStr "")),
      ("errors", if isTruthy success then .vNone
                 else (List.lookup "stderr" result).getD (.vStr ""))], w1)

/-- Allow-list of `decimate_object` types. -/
def valid_decimate_types : List String := ["COLLAPSE", "UNSUBDIV", "DISSOLVE"]

/-- Operation statements built by `subdivide_smooth.decimate_object` after
validation. -/
def decimate_object_operations (object_name : String) (ratio dt : String) :
    List String :=
  ["obj = bpy.data.objects[\"" ++ object_name ++ "\"]",
   "bpy.context.view_layer.objects.active = obj",
   "modifier = obj.modifiers.new(name=\"Decimate\", type=\"DECIMATE\")",
   "modifier.decimate_type = \"" ++ dt ++ "\"",
   "modifier.ratio = " ++ ratio,
   "bpy.ops.object.modifier_apply(modifier=\"Decimate\")",
   "results.append(\x7b\"action\": \"decimate_object\", \"object\": \"" ++ object_name ++
     "\", \"type\": \"" ++ dt ++ "\", \"ratio\": " ++ ratio ++ "\x7d)"]

/-- Model of `subdivide_smooth.decimate_object`: rejects types outside the allow-list
before building any script or touching the executor. -/
def decimate_object (object_name : String) (ratio dt : String)
    (outcome : SubprocessOutcome) (w : World) : Dict × World :=
  if !(valid_decimate_types.contains dt) then
    ([("success", .vBool false),
      ("error", .vStr ("Invalid decimate type: " ++ dt ++ ". Valid types: " ++
        pyStrListRepr valid_decimate_types))], w)
  else
    let script := create_basic_script
      (decimate_object_operations object_name ratio dt)
    let (result, w1) := execute_blender_script w script none outcome
    let success := (List.lookup "success" result).getD .vNone
    ([("success", success),
      ("action", .vStr "decimate_object"),
      ("object_name", .vStr object_name),
      ("parameters", .vDict [("type", .vStr dt), ("ratio", .vNum ratio)]),
      ("blender_output", (List.lookup "stdout" result).getD (.vStr "")),
      ("errors", if isTruthy success then .vNone
                 else (List.lookup "stderr" result).getD (.vStr ""))], w1)

/-- Operation statements built by `boolean_operations.join_objects` for two
or more object names. -/
def join_objects_operations (object_names : List String)
    (result_name : String) : List String :=
  let objects_list := joinSep ", "
    (object_names.map (fun n => "bpy.data.objects[\"" ++ n ++ "\"]"))
  ["objects_to_join = [" ++ objects_list ++ "]",
   "bpy.ops.object.select_all(action=\"DESELECT\")",
   "for obj in objects_to_join:",
   "    obj.select_set(True)",
   "bpy.context.view_layer.objects.active = objects_to_join[0]",
   "bpy.ops.object.join()",
   "bpy.context.active_object.name = \"" ++ result_name ++ "\"",
   "results.append(\x7b\"action\": \"join_objects\", \"input_objects\": " ++
     pyStrListRepr object_names ++ ", \"result_object\": \"" ++ result_name ++
     "\"\x7d)"]

/-- Model of `boolean_operations.join_objects`: fewer than two names is rejected
before any script is built; otherwise the join script is built and
executed. -/
def join_objects (object_names : List String) (result_name : String)
    (outcome : SubprocessOutcome) (w : World) : Dict × World :=
  if object_names.length < 2 then
    ([("success", .vBool false),
      ("error", .vStr "At least 2 objects required for joining")], w)
  else
    let script := create_basic_script
      (join_objects_operations object_names result_name)
    let (result, w1) := execute_blender_script w script none outcome
    let success := (List.lookup "success" result).getD .vNone
    ([("success", success),
      ("action", .vStr "join_objects"),
      ("input_objects", .vList (object_names.map .vStr)),
      ("result_object", .vStr result_name),
      ("blender_output", (List.lookup "stdout" result).getD (.vStr "")),
      ("errors", if isTruthy success then .vNone
                 else (List.lookup "stderr" result).getD (.vStr ""))], w1)

/-- An MCP `TextContent` payload (field `ty` models the Python attribute
named `type`, always `"text"` here). -/
structure TextContent where
  ty : String
  text : String
deriving Repr, DecidableEq

/-- The keys of the `handlers` dictionary in `mcp_server.call_tool`. -/
def registeredToolNames : List String :=
  ["get_server_info", "list_available_tools", "create_cube", "create_sphere",
   "create_cylinder", "create_plane", "create_cone", "clear_scene",
   "save_blend_file", "export_model"]

/-- Model of `json.dumps` escaping of one character inside a JSON string (quote,
backslash and the common control characters; other control characters do not
occur in this repository's messages). -/
def jsonEscapeChar (c : Char) : String :=
  if c = '"' then "\\\""
  else if c = '\\' then "\\\\"
  else if c = '\n' then "\\n"
  else if c = '\r' then "\\r"
  else if c = '\t' then "\\t"
  else String.singleton c

/-- Model of `json.dumps` escaping of a string body. -/
def jsonEscape (s : String) : String :=
  s.data.foldr (fun c acc => jsonEscapeChar c ++ acc) ""

/-- A JSON string literal as produced by `json.dumps`. -/
def jsonStrLit (s : String) : String := "\"" ++ jsonEscape s ++ "\""

/-- The text `json.dumps({"success": False, "error": str(e)})` produces: the payload
`call_tool` returns when a handler raises. -/
def dispatchErrorText (msg : String) : String :=
  "\x7b\"success\": false, \"error\": " ++ jsonStrLit msg ++ "\x7d"

/-- Behaviour of the awaited handler inside `call_tool`: either it returns
its `TextContent` list or it raises an exception with a message. -/
abbrev HandlerOutcome := Except String (List TextContent)

/-- Model of `mcp_server.call_tool`: looks the tool name up in the fixed `handlers`
dictionary; an unknown name yields an `Unknown tool` text response, and an
exception raised by the handler is caught and converted into a JSON error
payload.  The function is total: no path re-raises. -/
def call_tool (name : String) (handlerOutcome : HandlerOutcome) :
    List TextContent :=
  if !(registeredToolNames.contains name) then
    [⟨"text", "Unknown tool: " ++ name⟩]
  else
    match handlerOutcome with
    | .ok r => r
    | .error e => [⟨"text", dispatchErrorText e⟩]

/-!
Name-resolution model for the advanced tool wrappers of `server.py`.

`server.py` first star-imports the catalog modules, binding each catalog
function name in the module namespace, and then defines a decorated wrapper
of the same name, rebinding that name.  A call written inside a wrapper body
resolves the name in the module globals at call time, hence reaches the
wrapper itself.  `runToolCall` is a fuel-indexed evaluator for this call
graph: it returns `some` outcome when the chain of calls ever reaches a
catalog implementation (or an unbound name), and `none` when the fuel is
exhausted first.
-/

/-- A binding in the `server.py` module namespace: a function imported from
a catalog module, or a wrapper defined in `server.py` whose body consists of
a single call to the global of the stored name. -/
inductive ToolDef where
  | catalog : String → ToolDef
  | wrapper : String → ToolDef
deriving Repr, DecidableEq

/-- Names star-imported from `advanced_tools`. -/
def advancedToolsExports : List String :=
  ["create_mesh_from_vertices", "extrude_face", "inset_faces", "bevel_edges",
   "loop_cut", "scale_object", "rotate_object", "move_object"]

/-- Names star-imported from `boolean_operations`. -/
def booleanOperationsExports : List String :=
  ["boolean_union", "boolean_difference", "boolean_intersection",
   "duplicate_object", "join_objects", "separate_object_by_loose_parts"]

/-- Names star-imported from `subdivide_smooth`. -/
def subdivideSmoothExports : List String :=
  ["subdivide_surface", "smooth_object", "remesh_object", "decimate_object",
   "add_edge_split", "triangulate_mesh"]

/-- Names star-imported from `materials`. -/
def materialsExports : List String :=
  ["create_material", "apply_material_to_object", "create_glass_material",
   "create_metal_material", "create_emission_material", "add_noise_texture",
   "add_uv_mapping"]

/-- Names star-imported from `modifiers`. -/
def modifiersExports : List String :=
  ["add_array_modifier", "add_mirror_modifier", "add_solidify_modifier",
   "add_bevel_modifier", "add_screw_modifier", "add_wave_modifier",
   "add_displacement_modifier", "apply_modifier"]

/-- The advanced tool wrappers defined with `@mcp.tool()` in `server.py`
(lines 323-516), in definition order; each wrapper's body is a single call
to the function of its own name. -/
def serverWrapperNames : List String :=
  ["create_mesh_from_vertices", "extrude_face", "inset_faces", "bevel_edges",
   "loop_cut", "scale_object", "rotate_object", "move_object",
   "boolean_union", "boolean_difference", "boolean_intersection",
   "duplicate_object", "join_objects", "separate_object_by_loose_parts",
   "subdivide_surface", "smooth_object", "remesh_object", "decimate_object",
   "add_edge_split", "triangulate_mesh",
   "create_material", "apply_material_to_object", "create_glass_material",
   "create_metal_material", "create_emission_material", "add_noise_texture",
   "add_uv_mapping",
   "add_array_modifier", "add_mirror_modifier", "add_solidify_modifier",
   "add_bevel_modifier", "add_screw_modifier", "add_wave_modifier",
   "add_displacement_modifier", "apply_modifier"]

/-- The import-time bindings of `server.py` (star imports, in their source
order) followed by the wrapper definitions, which rebind the same names. -/
def serverModuleBindings : List (String × ToolDef) :=
  (advancedToolsExports.map (fun n => (n, ToolDef.catalog "advanced_tools"))) ++
  (booleanOperationsExports.map (fun n => (n, ToolDef.catalog "boolean_operations"))) ++
  (subdivideSmoothExports.map (fun n => (n, ToolDef.catalog "subdivide_smooth"))) ++
  (materialsExports.map (fun n => (n, ToolDef.catalog "materials"))) ++
  (modifiersExports.map (fun n => (n, ToolDef.catalog "modifiers"))) ++
  (serverWrapperNames.map (fun n => (n, ToolDef.wrapper n)))

/-- Resolve a global name against a binding sequence: the LAST binding of
the name wins, exactly as sequential assignment to a module namespace. -/
def resolveGlobal (bs : List (String × ToolDef)) (n : String) :
    Option ToolDef :=
  (bs.reverse.find? (fun p => p.1 == n)).map (fun p => p.2)

/-- Outcome of a tool call that terminates: it reached the catalog
implementation of the named module (which is where the subprocess call
lives), or the name was unbound. -/
inductive CallOutcome where
  | catalogReached : String → CallOutcome
  | nameError : CallOutcome
deriving Repr, DecidableEq

/-- Fuel-indexed evaluator of a call to a global name: a wrapper body calls
the global it names, a catalog function terminates the chain.  `none` means
the fuel ran out before any terminating step. -/
def runToolCall (env : String → Option ToolDef) :
    Nat → String → Option CallOutcome
  | 0, _ => none
  | fuel + 1, n =>
    match env n with
    | some (.wrapper m) => runToolCall env fuel m
    | some (.catalog mod) => some (.catalogReached mod)
    | none => some .nameError

/-- Contains-in-order relation `ChunksInOrder s ps`: the character list `s` can be written as
`g₀ ++ p₁ ++ g₁ ++ p₂ ++ ... ++ pₙ ++ gₙ`, i.e. every part of `ps` occurs
contiguously in `s`, in the given order and without overlap. -/
inductive ChunksInOrder : List Char → List (List Char) → Prop where
  | nil : ∀ s, ChunksInOrder s []
  | cons : ∀ (g p s : List Char) (ps : List (List Char)),
      ChunksInOrder s ps → ChunksInOrder (g ++ p ++ s) (p :: ps)

/-- A string contains the given substrings, in order and without overlap. -/
def ContainsInOrder (s : String) (ps : List String) : Prop :=
  ChunksInOrder s.data (ps.map String.data)

/-- The statement strings that precede the spliced operations in every
generated script: scene-clearing setup and the empty `results` accumulator. -/
def scriptHeadStmts : List String :=
  ["bpy.ops.object.select_all(action=\x27SELECT\x27)",
   "bpy.ops.object.delete(use_global=False, confirm=False)",
   "results = []"]

/-- The statement strings that follow the spliced operations in every
generated script: the success-marker print, the error envelope fields, the
error-marker print and the non-zero exit. -/
def scriptTailStmts : List String :=
  ["print(\"BLENDER_MCP_SUCCESS:\", json.dumps(\x7b\"success\": True, \"results\": results\x7d))",
   "\"success\": False",
   "\"error\": str(e)",
   "\"traceback\": traceback.format_exc()",
   "print(\"BLENDER_MCP_ERROR:\", json.dumps(error_info))",
   "sys.exit(1)"]

/-! ### Helper lemmas -/

theorem cio_append_left (t : List Char) {s : List Char}
    {ps : List (List Char)} (h : ChunksInOrder s ps) : ChunksInOrder (t ++ s) ps := by
  cases h with
  | nil s => exact ChunksInOrder.nil _
  | cons g p s' ps' h' =>
      have h2 := ChunksInOrder.cons (t ++ g) p s' ps' h'
      simpa [List.append_assoc] using h2

theorem cio_append_right (t : List Char) {s : List Char}
    {ps : List (List Char)} (h : ChunksInOrder s ps) : ChunksInOrder (s ++ t) ps := by
  induction h with
  | nil s => exact ChunksInOrder.nil _
  | cons g p s' ps' h' ih =>
      have h2 := ChunksInOrder.cons g p (s' ++ t) ps' ih
      simpa [List.append_assoc] using h2

theorem cio_concat {s t : List Char} {ps qs : List (List Char)}
    (h1 : ChunksInOrder s ps) (h2 : ChunksInOrder t qs) : ChunksInOrder (s ++ t) (ps ++ qs) := by
  induction h1 with
  | nil s => simpa using cio_append_left s h2
  | cons g p s' ps' h' ih =>
      have h3 := ChunksInOrder.cons g p (s' ++ t) (ps' ++ qs) ih
      simpa [List.append_assoc] using h3

theorem cio_sublist {s : List Char} {ps : List (List Char)}
    (h : ChunksInOrder s ps) : ∀ {qs : List (List Char)}, List.Sublist qs ps →
    ChunksInOrder s qs := by
  induction h with
  | nil s =>
      intro qs hsub
      cases hsub
      exact ChunksInOrder.nil _
  | cons g p s' ps' h' ih =>
      intro qs hsub
      cases hsub with
      | cons _ hq => exact cio_append_left _ (ih hq)
      | cons₂ _ hq => exact ChunksInOrder.cons g p s' _ (ih hq)

theorem cio_str_cons (g p s : String) (ps : List String)
    (h : ChunksInOrder s.data (ps.map String.data)) :
    ChunksInOrder (g ++ p ++ s).data ((p :: ps).map String.data) := by
  have h2 := ChunksInOrder.cons g.data p.data s.data (ps.map String.data) h
  simpa [String.data_append, List.append_assoc] using h2

theorem cio_joinSep (sep : String) : ∀ ops : List String,
    ChunksInOrder (joinSep sep ops).data (ops.map String.data)
  | [] => by simpa [joinSep] using ChunksInOrder.nil ("" : String).data
  | [x] => by
      have h := ChunksInOrder.cons [] x.data [] [] (ChunksInOrder.nil [])
      simpa [joinSep] using h
  | x :: y :: tl => by
      have ih := cio_joinSep sep (y :: tl)
      have h := ChunksInOrder.cons [] x.data
        (sep.data ++ (joinSep sep (y :: tl)).data)
        ((y :: tl).map String.data) (cio_append_left sep.data ih)
      simpa [joinSep, String.data_append, List.append_assoc] using h

/-- Every operation list is contained, in order, in the script built from
it. -/
theorem cio_create_basic_script (ops : List String) :
    ContainsInOrder (create_basic_script ops) ops := by
  unfold ContainsInOrder create_basic_script
  have h := cio_append_right templateTail.data
    (cio_append_left templateHead.data (cio_joinSep "\n        " ops))
  simpa [String.data_append, List.append_assoc] using h

/-- The fixed setup statements occur, in order, in the template part before
the spliced operations. -/
theorem cio_templateHead :
    ChunksInOrder templateHead.data (scriptHeadStmts.map String.data) := by
  have h0 : ChunksInOrder ("\n        \n        " : String).data ([].map String.data) :=
    ChunksInOrder.nil _
  have h1 := cio_str_cons "\n        \n        " "results = []"
    "\n        \n        " [] h0
  have h2 := cio_str_cons "\n        "
    "bpy.ops.object.delete(use_global=False, confirm=False)"
    ("\n        \n        " ++ "results = []" ++ "\n        \n        ")
    ["results = []"] h1
  have h3 := cio_str_cons
    "\nimport bpy\nimport bmesh\nimport json\nimport sys\nimport traceback\n\ndef main():\n    try:\n        # Clear existing mesh objects\n        "
    "bpy.ops.object.select_all(action=\x27SELECT\x27)"
    ("\n        " ++ "bpy.ops.object.delete(use_global=False, confirm=False)" ++
      ("\n        \n        " ++ "results = []" ++ "\n        \n        "))
    ["bpy.ops.object.delete(use_global=False, confirm=False)", "results = []"]
    h2
  have e : templateHead =
      "\nimport bpy\nimport bmesh\nimport json\nimport sys\nimport traceback\n\ndef main():\n    try:\n        # Clear existing mesh objects\n        " ++
      "bpy.ops.object.select_all(action=\x27SELECT\x27)" ++
      ("\n        " ++ "bpy.ops.object.delete(use_global=False, confirm=False)" ++
        ("\n        \n        " ++ "results = []" ++ "\n        \n        ")) := by
    decide
  rw [e]
  exact h3

/-- The success print, the error-envelope fields, the error print and the
non-zero exit occur, in order, in the template part after the spliced
operations. -/
theorem cio_templateTail :
    ChunksInOrder templateTail.data (scriptTailStmts.map String.data) := by
  have h0 : ChunksInOrder ("\n\nif __name__ == \"__main__\":\n    main()\n" : String).data
      ([].map String.data) := ChunksInOrder.nil _
  have h1 := cio_str_cons "\n        " "sys.exit(1)"
    "\n\nif __name__ == \"__main__\":\n    main()\n" [] h0
  have h2 := cio_str_cons "\n        \x7d\n        "
    "print(\"BLENDER_MCP_ERROR:\", json.dumps(error_info))"
    ("\n        " ++ "sys.exit(1)" ++
      "\n\nif __name__ == \"__main__\":\n    main()\n")
    ["sys.exit(1)"] h1
  have h3 := cio_str_cons ",\n            "
    "\"traceback\": traceback.format_exc()"
    ("\n        \x7d\n        " ++
      "print(\"BLENDER_MCP_ERROR:\", json.dumps(error_info))" ++
      ("\n        " ++ "sys.exit(1)" ++
        "\n\nif __name__ == \"__main__\":\n    main()\n"))
    ["print(\"BLENDER_MCP_ERROR:\", json.dumps(error_info))", "sys.exit(1)"]
    h2
  have h4 := cio_str_cons ",\n            " "\"error\": str(e)"
    (",\n            " ++ "\"traceback\": traceback.format_exc()" ++
      ("\n        \x7d\n        " ++
        "print(\"BLENDER_MCP_ERROR:\", json.dumps(error_info))" ++
        ("\n        " ++ "sys.exit(1)" ++
          "\n\nif __name__ == \"__main__\":\n    main()\n")))
    ["\"traceback\": traceback.format_exc()",
     "print(\"BLENDER_MCP_ERROR:\", json.dumps(error_info))", "sys.exit(1)"]
    h3
  have h5 := cio_str_cons
    "\n        \n    except Exception as e:\n        error_info = \x7b\n            "
    "\"success\": False"
    (",\n            " ++ "\"error\": str(e)" ++
      (",\n            " ++ "\"traceback\": traceback.format_exc()" ++
        ("\n        \x7d\n        " ++
          "print(\"BLENDER_MCP_ERROR:\", json.dumps(error_info))" ++
          ("\n        " ++ "sys.exit(1)" ++
            "\n\nif __name__ == \"__main__\":\n    main()\n"))))
    ["\"error\": str(e)", "\"traceback\": traceback.format_exc()",
     "print(\"BLENDER_MCP_ERROR:\", json.dumps(error_info))", "sys.exit(1)"]
    h4
  have h6 := cio_str_cons
    "\n        \n        # Success output\n        "
    "print(\"BLENDER_MCP_SUCCESS:\", json.dumps(\x7b\"success\": True, \"results\": results\x7d))"
    ("\n        \n    except Exception as e:\n        error_info = \x7b\n            " ++
      "\"success\": False" ++
      (",\n            " ++ "\"error\": str(e)" ++
        (",\n            " ++ "\"traceback\": traceback.format_exc()" ++
          ("\n        \x7d\n        " ++
            "print(\"BLENDER_MCP_ERROR:\", json.dumps(error_info))" ++
            ("\n        " ++ "sys.exit(1)" ++
              "\n\nif __name__ == \"__main__\":\n    main()\n")))))
    ["\"success\": False", "\"error\": str(e)",
     "\"traceback\": traceback.format_exc()",
     "print(\"BLENDER_MCP_ERROR:\", json.dumps(error_info))", "sys.exit(1)"]
    h5
  have e : templateTail =
      "\n        \n        # Success output\n        " ++
      "print(\"BLENDER_MCP_SUCCESS:\", json.dumps(\x7b\"success\": True, \"results\": results\x7d))" ++
      ("\n        \n    except Exception as e:\n        error_info = \x7b\n            " ++
        "\"success\": False" ++
        (",\n            " ++ "\"error\": str(e)" ++
          (",\n            " ++ "\"traceback\": traceback.format_exc()" ++
            ("\n        \x7d\n        " ++
              "print(\"BLENDER_MCP_ERROR:\", json.dumps(error_info))" ++
              ("\n        " ++ "sys.exit(1)" ++
                "\n\nif __name__ == \"__main__\":\n    main()\n"))))) := by
    decide
  rw [e]
  exact h6

/-- The executor appends exactly a write of the staged script, the process
invocation, and (on normal completion only) the removal of the staged file
to the event trace. -/
theorem exec_events (w : World) (s : String) (bf : Option String)
    (outcome : SubprocessOutcome) :
    (execute_blender_script w s bf outcome).2.events =
      w.events ++ [.writeFile scriptFileName s,
        .runProcess (blenderCmd blenderExecutable bf)] ++
      execTailEvents outcome := by
  cases outcome <;>
    simp [execute_blender_script, fsWrite, fsRun, fsRemove, execTailEvents]

/-- Appending a non-empty suffix changes a string. -/
theorem append_suffix_ne (s t : String) (ht : 0 < t.length) :
    s ++ t ≠ s := by
  intro hh
  have hl := congrArg String.length hh
  rw [String.length_append] at hl
  omega

/-- A name bound to a wrapper that calls the name itself never evaluates to
a result, whatever the fuel. -/
theorem selfLoopNone (env : String → Option ToolDef) (n : String)
    (h : env n = some (.wrapper n)) :
    ∀ fuel, runToolCall env fuel n = none := by
  intro fuel
  induction fuel with
  | zero => rfl
  | succ k ih => simp [runToolCall, h, ih]

/-! ### Claim theorems -/

/-- Claim C6: `create_basic_script` is a pure string-building function (its
embedding takes no `World` and touches no state); the script it returns is
the fixed template around the statements joined verbatim with the 8-space
separator, and it contains, in order: the two scene-deleting statements, the
declaration `results = []`, every caller-supplied statement verbatim, the
success-marker print of `{"success": true, "results": [...]}`, the error
envelope fields (`success` false, error message, traceback), the
error-marker print, and the non-zero `sys.exit(1)` termination. -/
theorem claim_C6_script_builder (ops : List String) :
    create_basic_script ops =
      templateHead ++ joinSep "\n        " ops ++ templateTail ∧
    ContainsInOrder (create_basic_script ops)
      (scriptHeadStmts ++ ops ++ scriptTailStmts) := by
  refine ⟨rfl, ?_⟩
  unfold ContainsInOrder create_basic_script
  have h := cio_concat
    (cio_concat cio_templateHead (cio_joinSep "\n        " ops))
    cio_templateTail
  simpa [String.data_append, List.map_append, List.append_assoc] using h

/-- Claim C7: on normal subprocess completion the executor returns exactly
the dictionary `{success, stdout, stderr, returncode}` — those four keys and
no others — with `success` true exactly when the exit code is 0 and the
captured streams passed through. -/
theorem claim_C7_exec_normal_completion (w : World) (script : String)
    (bf : Option String) (out err : String) (rc : Int) :
    (execute_blender_script w script bf (.completed out err rc)).1 =
      [("success", .vBool (rc == 0)), ("stdout", .vStr out),
       ("stderr", .vStr err), ("returncode", .vInt rc)] ∧
    (execute_blender_script w script bf (.completed out err rc)).1.map
        Prod.fst = ["success", "stdout", "stderr", "returncode"] ∧
    (List.lookup "success"
        (execute_blender_script w script bf (.completed out err rc)).1 =
      some (.vBool true) ↔ rc = 0) := by
  refine ⟨rfl, rfl, ?_⟩
  simp [execute_blender_script, List.lookup]

/-- Claim C3: a subprocess timeout yields
`{success: false, error: "Blender script execution timed out", timeout:
true}` and any other exception yields `{success: false, error: msg}`; the
embedded executor is a total function, mirroring the source's catch-all
`except` branches, so neither path raises to the caller. -/
theorem claim_C3_exec_timeout_and_exception (w : World) (script : String)
    (bf : Option String) (msg : String) :
    (execute_blender_script w script bf .timeout).1 =
      [("success", .vBool false),
       ("error", .vStr "Blender script execution timed out"),
       ("timeout", .vBool true)] ∧
    (execute_blender_script w script bf (.exc msg)).1 =
      [("success", .vBool false), ("error", .vStr msg)] :=
  ⟨rfl, rfl⟩

/-- Claim C8: on the normal-completion path the staged `temp_script.py` is
deleted before the executor returns (the temporary files are exactly the
previous ones minus that name); on the timeout and generic-exception paths
the staged file remains, holding the script; the temporary directory's
existence is untouched on every path, and only `cleanup` removes it. -/
theorem claim_C8_staged_file_lifecycle (w : World) (script : String)
    (bf : Option String) (out err : String) (rc : Int) (msg : String) :
    ((execute_blender_script w script bf (.completed out err rc)).2.tempFiles =
      w.tempFiles.filter (fun e => !(e.1 == scriptFileName))) ∧
    ((execute_blender_script w script bf .timeout).2.tempFiles =
      (scriptFileName, script) ::
        w.tempFiles.filter (fun e => !(e.1 == scriptFileName))) ∧
    ((execute_blender_script w script bf (.exc msg)).2.tempFiles =
      (scriptFileName, script) ::
        w.tempFiles.filter (fun e => !(e.1 == scriptFileName))) ∧
    ((execute_blender_script w script bf
        (.completed out err rc)).2.tempDirExists = w.tempDirExists) ∧
    ((execute_blender_script w script bf .timeout).2.tempDirExists =
      w.tempDirExists) ∧
    ((execute_blender_script w script bf (.exc msg)).2.tempDirExists =
      w.tempDirExists) ∧
    (cleanup w).tempFiles = [] ∧ (cleanup w).tempDirExists = false := by
  refine ⟨?_, rfl, rfl, rfl, rfl, rfl, rfl, rfl⟩
  simp [execute_blender_script, fsWrite, fsRun, fsRemove,
    List.filter_filter]

/-- Claim C2: every advanced tool wrapper of `server.py` rebinds the name of
the catalog function it shadows, its body's call resolves to the wrapper
itself, and evaluation of a call to it therefore never terminates for any
fuel — in particular it never reaches a catalog implementation (where the
subprocess call lives), which a terminating `some (catalogReached _)`
outcome would signal. -/
theorem claim_C2_wrappers_self_recurse :
    ∀ n ∈ serverWrapperNames,
      resolveGlobal serverModuleBindings n = some (ToolDef.wrapper n) ∧
      ∀ fuel, runToolCall (resolveGlobal serverModuleBindings) fuel n =
        none := by
  intro n hn
  have hres : resolveGlobal serverModuleBindings n =
      some (ToolDef.wrapper n) := by
    have hall : ∀ m ∈ serverWrapperNames,
        resolveGlobal serverModuleBindings m = some (ToolDef.wrapper m) := by
      decide
    exact hall n hn
  exact ⟨hres, selfLoopNone _ n hres⟩

/-- Witness for C2 at the concrete wrapper `extrude_face`. -/
theorem claim_C2_witness :
    "extrude_face" ∈ serverWrapperNames ∧
    (resolveGlobal serverModuleBindings "extrude_face" =
        some (ToolDef.wrapper "extrude_face") ∧
      ∀ fuel, runToolCall (resolveGlobal serverModuleBindings) fuel
        "extrude_face" = none) :=
  ⟨by decide, claim_C2_wrappers_self_recurse "extrude_face" (by decide)⟩

/-- Claim C1: the script generated by `create_cube` contains, in order, a
statement creating a cube of the given size at the given location and a
statement renaming the active object; when the executor completes with exit
code 0, the response has `success` true, `object_name` and `object_type` as
claimed, and a `parameters` field echoing size and location unchanged — and
the same success/echo property holds for `create_sphere`, `create_cylinder`,
`create_plane`, `create_cone` and for `mcp_server.handle_create_cube`. -/
theorem claim_C1_primitive_roundtrip_echo
    (size radius radius1 radius2 depth : String) (loc : PyTuple3)
    (name out err : String) (w : World) :
    ContainsInOrder
      (create_basic_script (create_cube_operations size loc name))
      ["bpy.ops.mesh.primitive_cube_add(size=" ++ size ++ ", location=" ++
         tupleRepr loc ++ ")",
       "bpy.context.active_object.name = \"" ++ name ++ "\""] ∧
    List.lookup "success"
        (create_cube size loc name (.completed out err 0) w).1 =
      some (.vBool true) ∧
    List.lookup "object_name"
        (create_cube size loc name (.completed out err 0) w).1 =
      some (.vStr name) ∧
    List.lookup "object_type"
        (create_cube size loc name (.completed out err 0) w).1 =
      some (.vStr "cube") ∧
    List.lookup "parameters"
        (create_cube size loc name (.completed out err 0) w).1 =
      some (.vDict [("size", .vNum size), ("location", tuplePy loc)]) ∧
    List.lookup "success"
        (create_sphere radius loc name (.completed out err 0) w).1 =
      some (.vBool true) ∧
    List.lookup "parameters"
        (create_sphere radius loc name (.completed out err 0) w).1 =
      some (.vDict [("radius", .vNum radius), ("location", tuplePy loc)]) ∧
    List.lookup "success"
        (create_cylinder radius depth loc name (.completed out err 0) w).1 =
      some (.vBool true) ∧
    List.lookup "parameters"
        (create_cylinder radius depth loc name (.completed out err 0) w).1 =
      some (.vDict [("radius", .vNum radius), ("depth", .vNum depth),
        ("location", tuplePy loc)]) ∧
    List.lookup "success"
        (create_plane size loc name (.completed out err 0) w).1 =
      some (.vBool true) ∧
    List.lookup "parameters"
        (create_plane size loc name (.completed out err 0) w).1 =
      some (.vDict [("size", .vNum size), ("location", tuplePy loc)]) ∧
    List.lookup "success"
        (create_cone radius1 radius2 depth loc name
          (.completed out err 0) w).1 = some (.vBool true) ∧
    List.lookup "parameters"
        (create_cone radius1 radius2 depth loc name
          (.completed out err 0) w).1 =
      some (.vDict [("radius1", .vNum radius1), ("radius2", .vNum radius2),
        ("depth", .vNum depth), ("location", tuplePy loc)]) ∧
    List.lookup "success"
        (handle_create_cube size loc name (.completed out err 0) w).1 =
      some (.vBool true) ∧
    List.lookup "parameters"
        (handle_create_cube size loc name (.completed out err 0) w).1 =
      some (.vDict [("size", .vNum size), ("location", listPy loc)]) := by
  refine ⟨?_, rfl, rfl, rfl, rfl, rfl, rfl, rfl, rfl, rfl, rfl, rfl, rfl,
    rfl, rfl⟩
  have h := cio_create_basic_script (create_cube_operations size loc name)
  exact cio_sublist h
    (List.Sublist.map String.data
      (List.sublist_append_left
        ["bpy.ops.mesh.primitive_cube_add(size=" ++ size ++ ", location=" ++
           tupleRepr loc ++ ")",
         "bpy.context.active_object.name = \"" ++ name ++ "\""]
        ["results.append(\x7b\"object\": \"" ++ name ++
           "\", \"type\": \"cube\", \"size\": " ++ size ++ ", \"location\": " ++
           tupleRepr loc ++ "\x7d)"]))

/-- Claim C4: a format outside `{obj, fbx, stl, ply}` (after lowercasing), a
remesh mode outside `{BLOCKS, SMOOTH, SHARP, VOXEL}`, or a decimate type
outside `{COLLAPSE, UNSUBDIV, DISSOLVE}` is rejected with `success` false
and an error naming the offending value and the valid set, and the world is
returned untouched: no script is staged, no directory created, no
subprocess run. -/
theorem claim_C4_enum_allowlists
    (filepath fmt : String) (sel : Bool) (object_name : String)
    (octree_depth : Int) (scale mode ratio dt : String)
    (outcome : SubprocessOutcome) (w : World) :
    (supported_formats.contains (pyLower fmt) = false →
      export_model filepath fmt sel outcome w =
        .ok ([("success", .vBool false),
          ("error", .vStr ("Unsupported format: " ++ pyLower fmt ++
            ". Supported: " ++ pyStrListRepr supported_formats))], w)) ∧
    (valid_remesh_modes.contains mode = false →
      remesh_object object_name octree_depth scale mode outcome w =
        ([("success", .vBool false),
          ("error", .vStr ("Invalid remesh mode: " ++ mode ++
            ". Valid modes: " ++ pyStrListRepr valid_remesh_modes))], w)) ∧
    (valid_decimate_types.contains dt = false →
      decimate_object object_name ratio dt outcome w =
        ([("success", .vBool false),
          ("error", .vStr ("Invalid decimate type: " ++ dt ++
            ". Valid types: " ++ pyStrListRepr valid_decimate_types))], w)) := by
  refine ⟨?_, ?_, ?_⟩
  · intro h
    have h2 : pyLower fmt ∉ supported_formats := by simpa using h
    simp [export_model, h2]
  · intro h
    have h2 : mode ∉ valid_remesh_modes := by simpa using h
    simp [remesh_object, h2]
  · intro h
    have h2 : dt ∉ valid_decimate_types := by simpa using h
    simp [decimate_object, h2]

/-- Witness for C4 at the concrete invalid values `"GIF"`, `"bogus"` and
`"bogus"`. -/
theorem claim_C4_witness :
    export_model "model" "GIF" false (.completed "" "" 0) initialWorld =
      .ok ([("success", .vBool false),
        ("error", .vStr ("Unsupported format: " ++ pyLower "GIF" ++
          ". Supported: " ++ pyStrListRepr supported_formats))],
       initialWorld) ∧
    remesh_object "Cube" 4 "0.99" "bogus" (.completed "" "" 0)
        initialWorld =
      ([("success", .vBool false),
        ("error", .vStr ("Invalid remesh mode: " ++ "bogus" ++
          ". Valid modes: " ++ pyStrListRepr valid_remesh_modes))],
       initialWorld) ∧
    decimate_object "Cube" "0.5" "bogus" (.completed "" "" 0)
        initialWorld =
      ([("success", .vBool false),
        ("error", .vStr ("Invalid decimate type: " ++ "bogus" ++
          ". Valid types: " ++ pyStrListRepr valid_decimate_types))],
       initialWorld) :=
  ⟨(claim_C4_enum_allowlists "model" "GIF" false "Cube" 4 "0.99" "bogus"
      "0.5" "bogus" (.completed "" "" 0) initialWorld).1 (by decide),
   (claim_C4_enum_allowlists "model" "GIF" false "Cube" 4 "0.99" "bogus"
      "0.5" "bogus" (.completed "" "" 0) initialWorld).2.1 (by decide),
   (claim_C4_enum_allowlists "model" "GIF" false "Cube" 4 "0.99" "bogus"
      "0.5" "bogus" (.completed "" "" 0) initialWorld).2.2 (by decide)⟩

/-- Claim C5: `join_objects` with fewer than two names returns the error
dictionary with the world untouched (no script built, nothing executed);
with two or more names it stages and runs exactly the join script. -/
theorem claim_C5_join_objects_arity
    (object_names : List String) (result_name : String)
    (outcome : SubprocessOutcome) (w : World) :
    (object_names.length < 2 →
      join_objects object_names result_name outcome w =
        ([("success", .vBool false),
          ("error", .vStr "At least 2 objects required for joining")], w)) ∧
    (2 ≤ object_names.length →
      (join_objects object_names result_name outcome w).2.events =
        w.events ++
          [.writeFile scriptFileName
            (create_basic_script
              (join_objects_operations object_names result_name)),
           .runProcess (blenderCmd blenderExecutable none)] ++
          execTailEvents outcome) := by
  constructor
  · intro h; simp [join_objects, h]
  · intro h
    have hlt : ¬ object_names.length < 2 := by omega
    cases outcome <;>
      simp [join_objects, hlt, execute_blender_script, fsWrite, fsRun,
        fsRemove, execTailEvents, List.append_assoc]

/-- Witness for C5 at the concrete inputs `[]` and `["Cube", "Sphere"]`. -/
theorem claim_C5_witness :
    join_objects [] "Joined" (.completed "" "" 0) initialWorld =
      ([("success", .vBool false),
        ("error", .vStr "At least 2 objects required for joining")],
       initialWorld) ∧
    (join_objects ["Cube", "Sphere"] "Joined" (.completed "" "" 0)
        initialWorld).2.events =
      initialWorld.events ++
        [.writeFile scriptFileName
          (create_basic_script
            (join_objects_operations ["Cube", "Sphere"] "Joined")),
         .runProcess (blenderCmd blenderExecutable none)] ++
        execTailEvents (.completed "" "" 0) :=
  ⟨(claim_C5_join_objects_arity [] "Joined" (.completed "" "" 0)
      initialWorld).1 (by decide),
   (claim_C5_join_objects_arity ["Cube", "Sphere"] "Joined"
      (.completed "" "" 0) initialWorld).2 (by decide)⟩

/-- Claim C9: dispatching an unknown tool name returns a structured
`TextContent` response rather than raising; a handler exception is caught
and converted into a JSON payload with `success` false and the exception
message; a normal handler result passes through.  The embedded `call_tool`
is total: no path propagates a fault. -/
theorem claim_C9_dispatch (name e : String) (hr : HandlerOutcome)
    (r : List TextContent) :
    (registeredToolNames.contains name = false →
      call_tool name hr = [⟨"text", "Unknown tool: " ++ name⟩]) ∧
    (registeredToolNames.contains name = true →
      call_tool name (.error e) = [⟨"text", dispatchErrorText e⟩]) ∧
    (registeredToolNames.contains name = true →
      call_tool name (.ok r) = r) ∧
    dispatchErrorText e =
      "\x7b\"success\": false, \"error\": \"" ++ jsonEscape e ++ "\"\x7d" := by
  refine ⟨?_, ?_, ?_, ?_⟩
  · intro h
    have h2 : name ∉ registeredToolNames := by simpa using h
    simp [call_tool, h2]
  · intro h
    have h2 : name ∈ registeredToolNames := by simpa using h
    simp [call_tool, h2]
  · intro h
    have h2 : name ∈ registeredToolNames := by simpa using h
    simp [call_tool, h2]
  · apply String.ext
    simp [dispatchErrorText, jsonStrLit, String.data_append,
      List.append_assoc]

/-- Witness for C9 at the unknown name `"bogus"` and the registered name
`"create_cube"` with a raising handler. -/
theorem claim_C9_witness :
    call_tool "bogus" (.ok []) = [⟨"text", "Unknown tool: " ++ "bogus"⟩] ∧
    call_tool "create_cube" (.error "boom") =
      [⟨"text", dispatchErrorText "boom"⟩] :=
  ⟨(claim_C9_dispatch "bogus" "" (.ok []) []).1 (by decide),
   (claim_C9_dispatch "create_cube" "boom" (.ok []) []).2.1 (by decide)⟩

/-- Counterexample to claim C10 as stated: at the bare filename `"model"`,
`save_blend_file` extends the path to `"model.blend"`, whose `dirname` is
empty, so the unprotected `os.makedirs("")` raises `FileNotFoundError` — the
operation returns no response dictionary at all (no `filepath` field, no
subprocess), refuting "for every filepath argument … the response's
filepath field contains this possibly-extended path". -/
theorem claim_C10_counterexample :
    dirname (if pyEndsWith "model" ".blend" then "model"
             else "model" ++ ".blend") = "" ∧
    save_blend_file "model" (.completed "" "" 0) initialWorld =
      .error "[Errno 2] No such file or directory: \x27\x27" ∧
    (save_blend_file "model" (.completed "" "" 0) initialWorld).isOk =
      false :=
  ⟨rfl, rfl, rfl⟩

/-- Claim C10 (amended): `save_blend_file` appends `.blend` when missing and
`export_model` appends `.` plus the lowercased format when missing.  When
the possibly-extended path has a non-empty containing directory, the
response's `filepath` field holds the possibly-extended path (differing from
the caller's argument whenever an extension was added), and the containing
directory is created (`makedirs` event) before the subprocess is launched
(`runProcess` event); when the possibly-extended path has no directory
component, the unprotected `os.makedirs("")` raises `FileNotFoundError`,
which propagates — no response is returned and no subprocess is launched. -/
theorem claim_C10_filepath_extension
    (filepath fmt : String) (sel : Bool) (outcome : SubprocessOutcome)
    (w : World) :
    (dirname (if pyEndsWith filepath ".blend" then filepath
              else filepath ++ ".blend") ≠ "" →
      ((save_blend_file filepath outcome w).map
          (fun p => List.lookup "filepath" p.1) =
        .ok (some (.vStr (if pyEndsWith filepath ".blend" then filepath
                          else filepath ++ ".blend")))) ∧
      (pyEndsWith filepath ".blend" = false →
        (save_blend_file filepath outcome w).map
            (fun p => List.lookup "filepath" p.1) ≠
          .ok (some (.vStr filepath))) ∧
      ((save_blend_file filepath outcome w).map (fun p => p.2.events) =
        .ok (w.events ++
          [.makedirs (dirname (if pyEndsWith filepath ".blend" then filepath
                               else filepath ++ ".blend")),
           .writeFile scriptFileName
             (create_basic_script (save_blend_file_operations
               (if pyEndsWith filepath ".blend" then filepath
                else filepath ++ ".blend"))),
           .runProcess (blenderCmd blenderExecutable none)] ++
          execTailEvents outcome))) ∧
    (dirname (if pyEndsWith filepath ".blend" then filepath
              else filepath ++ ".blend") = "" →
      save_blend_file filepath outcome w =
        .error "[Errno 2] No such file or directory: \x27\x27") ∧
    (supported_formats.contains (pyLower fmt) = true →
      (dirname (if pyEndsWith filepath ("." ++ pyLower fmt) then filepath
                else filepath ++ "." ++ pyLower fmt) ≠ "" →
        ((export_model filepath fmt sel outcome w).map
            (fun p => List.lookup "filepath" p.1) =
          .ok (some (.vStr
            (if pyEndsWith filepath ("." ++ pyLower fmt) then filepath
             else filepath ++ "." ++ pyLower fmt)))) ∧
        (pyEndsWith filepath ("." ++ pyLower fmt) = false →
          (export_model filepath fmt sel outcome w).map
              (fun p => List.lookup "filepath" p.1) ≠
            .ok (some (.vStr filepath))) ∧
        ((export_model filepath fmt sel outcome w).map
            (fun p => p.2.events) =
          .ok (w.events ++
            [.makedirs (dirname
               (if pyEndsWith filepath ("." ++ pyLower fmt) then filepath
                else filepath ++ "." ++ pyLower fmt)),
             .writeFile scriptFileName
               (create_basic_script (export_model_operations (pyLower fmt)
                 (if pyEndsWith filepath ("." ++ pyLower fmt) then filepath
                  else filepath ++ "." ++ pyLower fmt) sel)),
             .runProcess (blenderCmd blenderExecutable none)] ++
            execTailEvents outcome))) ∧
      (dirname (if pyEndsWith filepath ("." ++ pyLower fmt) then filepath
                else filepath ++ "." ++ pyLower fmt) = "" →
        export_model filepath fmt sel outcome w =
          .error "[Errno 2] No such file or directory: \x27\x27")) := by
  refine ⟨?_, ?_, ?_⟩
  · intro hd
    refine ⟨?_, ?_, ?_⟩
    · cases outcome <;>
        simp [save_blend_file, fsMakedirs, hd, execute_blender_script,
          fsWrite, fsRun, fsRemove, List.lookup, Except.map]
    · intro h hc
      have hd2 : dirname (filepath ++ ".blend") ≠ "" := by
        simpa [h] using hd
      have hx : filepath ++ ".blend" = filepath := by
        cases outcome <;>
          simpa [save_blend_file, fsMakedirs, hd2, h,
            execute_blender_script, fsWrite, fsRun, fsRemove,
            List.lookup, Except.map] using hc
      exact append_suffix_ne filepath ".blend" (by decide) hx
    · cases outcome <;>
        simp [save_blend_file, fsMakedirs, hd, execute_blender_script,
          fsWrite, fsRun, fsRemove, execTailEvents, Except.map,
          List.append_assoc]
  · intro hd
    simp [save_blend_file, fsMakedirs, hd]
  · intro hfmt
    have hf2 : pyLower fmt ∈ supported_formats := by simpa using hfmt
    refine ⟨?_, ?_⟩
    · intro hd
      refine ⟨?_, ?_, ?_⟩
      · cases outcome <;>
          simp [export_model, hf2, fsMakedirs, hd, List.lookup,
            execute_blender_script, fsWrite, fsRun, fsRemove, Except.map]
      · intro h hc
        have hd2 : dirname (filepath ++ "." ++ pyLower fmt) ≠ "" := by
          simpa [h] using hd
        have hx : filepath ++ "." ++ pyLower fmt = filepath := by
          cases outcome <;>
            simpa [export_model, hf2, fsMakedirs, hd2, h,
              execute_blender_script, fsWrite, fsRun, fsRemove,
              List.lookup, Except.map] using hc
        rw [String.append_assoc] at hx
        have hlen : 0 < ("." ++ pyLower fmt).length := by
          have h1 : ("." : String).length = 1 := rfl
          rw [String.length_append, h1]
          omega
        exact append_suffix_ne filepath ("." ++ pyLower fmt) hlen hx
      · cases outcome <;>
          simp [export_model, hf2, fsMakedirs, hd, execute_blender_script,
            fsWrite, fsRun, fsRemove, execTailEvents, Except.map,
            List.append_assoc]
    · intro hd
      simp [export_model, hf2, fsMakedirs, hd]

/-- Witness for C10 at the concrete path `"out/model"` (no extension,
non-empty directory part) with format `"OBJ"`. -/
theorem claim_C10_witness :
    ((save_blend_file "out/model" (.completed "" "" 0) initialWorld).map
        (fun p => List.lookup "filepath" p.1) ≠
      .ok (some (.vStr "out/model"))) ∧
    ((export_model "out/model" "OBJ" false (.completed "" "" 0)
        initialWorld).map (fun p => List.lookup "filepath" p.1) =
      .ok (some (.vStr
        (if pyEndsWith "out/model" ("." ++ pyLower "OBJ") then "out/model"
         else "out/model" ++ "." ++ pyLower "OBJ")))) :=
  ⟨(((claim_C10_filepath_extension "out/model" "OBJ" false
      (.completed "" "" 0) initialWorld).1 (by decide)).2.1 (by decide)),
   ((((claim_C10_filepath_extension "out/model" "OBJ" false
      (.completed "" "" 0) initialWorld).2.2 (by decide)).1
        (by decide)).1)⟩

end BlenderMCP
